import Mathlib

/-!
# Verification of the xiaoai-cli smart-speaker client core

A shallow embedding, in Lean 4, of the authenticated-session and
remote-procedure client of the `xiaoai-cli` repository: the signing
utilities (`hash_password`, `client_sign`), the response envelope and its
validation (`error_for_code`), the three-phase login handshake, the signed
GET/POST request layer, the device command protocol (ubus calls) and the
polling primitive.  Byte strings are `List Nat` (each element a byte value),
machine integers are `Nat`/`Int` with explicit `% 2^32` where the code
computes modulo 2^32, and fallible operations return `Option`/`Except`.
-/

namespace XiaoaiCli

/-! ## Bytes and 32-bit words -/

/-- Addition modulo 2^32, the wrapping addition of the digest cores. -/
def add32 (a b : Nat) : Nat := (a + b) % 4294967296

/-- Left rotation of a 32-bit word by `n` places. -/
def rotl32 (x n : Nat) : Nat :=
  ((x <<< n) ||| (x >>> (32 - n))) % 4294967296

/-- Bitwise complement of a 32-bit word. -/
def not32 (x : Nat) : Nat := x ^^^ 4294967295

/-- `n` little-endian bytes of `x` (least significant byte first). -/
def leBytes (n x : Nat) : List Nat :=
  (List.range n).map (fun i => (x >>> (8 * i)) % 256)

/-- `n` big-endian bytes of `x` (most significant byte first). -/
def beBytes (n x : Nat) : List Nat :=
  (List.range n).map (fun i => (x >>> (8 * (n - 1 - i))) % 256)

/-- UTF-8 encoding of one character, as byte values. -/
def charBytes (c : Char) : List Nat :=
  let n := c.toNat
  if n < 128 then [n]
  else if n < 2048 then [192 + n / 64, 128 + n % 64]
  else if n < 65536 then [224 + n / 4096, 128 + n / 64 % 64, 128 + n % 64]
  else [240 + n / 262144, 128 + n / 4096 % 64, 128 + n / 64 % 64, 128 + n % 64]

/-- UTF-8 bytes of a string, the `as_bytes`/`AsRef<[u8]>` view Rust hands to
the digest functions. -/
def strBytes (s : String) : List Nat := s.data.flatMap charBytes

/-! ## MD5 (RFC 1321), over byte lists -/

/-- The 64 MD5 sine-table constants `K`. -/
def md5K : List Nat :=
  [0xd76aa478, 0xe8c7b756, 0x242070db, 0xc1bdceee,
   0xf57c0faf, 0x4787c62a, 0xa8304613, 0xfd469501,
   0x698098d8, 0x8b44f7af, 0xffff5bb1, 0x895cd7be,
   0x6b901122, 0xfd987193, 0xa679438e, 0x49b40821,
   0xf61e2562, 0xc040b340, 0x265e5a51, 0xe9b6c7aa,
   0xd62f105d, 0x02441453, 0xd8a1e681, 0xe7d3fbc8,
   0x21e1cde6, 0xc33707d6, 0xf4d50d87, 0x455a14ed,
   0xa9e3e905, 0xfcefa3f8, 0x676f02d9, 0x8d2a4c8a,
   0xfffa3942, 0x8771f681, 0x6d9d6122, 0xfde5380c,
   0xa4beea44, 0x4bdecfa9, 0xf6bb4b60, 0xbebfbc70,
   0x289b7ec6, 0xeaa127fa, 0xd4ef3085, 0x04881d05,
   0xd9d4d039, 0xe6db99e5, 0x1fa27cf8, 0xc4ac5665,
   0xf4292244, 0x432aff97, 0xab9423a7, 0xfc93a039,
   0x655b59c3, 0x8f0ccc92, 0xffeff47d, 0x85845dd1,
   0x6fa87e4f, 0xfe2ce6e0, 0xa3014314, 0x4e0811a1,
   0xf7537e82, 0xbd3af235, 0x2ad7d2bb, 0xeb86d391]

/-- The 64 per-round MD5 shift amounts `s`. -/
def md5S : List Nat :=
  [7, 12, 17, 22, 7, 12, 17, 22, 7, 12, 17, 22, 7, 12, 17, 22,
   5, 9, 14, 20, 5, 9, 14, 20, 5, 9, 14, 20, 5, 9, 14, 20,
   4, 11, 16, 23, 4, 11, 16, 23, 4, 11, 16, 23, 4, 11, 16, 23,
   6, 10, 15, 21, 6, 10, 15, 21, 6, 10, 15, 21, 6, 10, 15, 21]

/-- MD5 padding: `0x80`, zeros to 56 mod 64, then the bit length as eight
little-endian bytes. -/
def md5Pad (msg : List Nat) : List Nat :=
  let l := msg.length
  msg ++ [128] ++ List.replicate ((119 - l % 64) % 64) 0 ++ leBytes 8 (l * 8)

/-- One MD5 round applied to the state `(a, b, c, d)`; `m` is the block's
word schedule. -/
def md5Round (m : Nat → Nat) (st : Nat × Nat × Nat × Nat) (i : Nat) :
    Nat × Nat × Nat × Nat :=
  let (a, b, c, d) := st
  let f :=
    if i < 16 then (b &&& c) ||| (not32 b &&& d)
    else if i < 32 then (d &&& b) ||| (not32 d &&& c)
    else if i < 48 then (b ^^^ c) ^^^ d
    else c ^^^ (b ||| not32 d)
  let g :=
    if i < 16 then i
    else if i < 32 then (5 * i + 1) % 16
    else if i < 48 then (3 * i + 5) % 16
    else (7 * i) % 16
  let t := add32 (add32 f a) (add32 (md5K.getD i 0) (m g))
  (d, add32 b (rotl32 t (md5S.getD i 0)), b, c)

/-- Little-endian 32-bit word `j` of a 64-byte block. -/
def leWord (block : List Nat) (j : Nat) : Nat :=
  block.getD (4 * j) 0 + 256 * block.getD (4 * j + 1) 0 +
    65536 * block.getD (4 * j + 2) 0 + 16777216 * block.getD (4 * j + 3) 0

/-- Process one MD5 block, updating the running state. -/
def md5Block (st : Nat × Nat × Nat × Nat) (block : List Nat) :
    Nat × Nat × Nat × Nat :=
  let (a0, b0, c0, d0) := st
  let (a, b, c, d) := (List.range 64).foldl (md5Round (leWord block)) st
  (add32 a0 a, add32 b0 b, add32 c0 c, add32 d0 d)

/-- MD5 digest of a byte list: 16 bytes. -/
def md5 (msg : List Nat) : List Nat :=
  let padded := md5Pad msg
  let blocks := (List.range (padded.length / 64)).map
    (fun i => (padded.drop (64 * i)).take 64)
  let st := blocks.foldl md5Block (0x67452301, 0xefcdab89, 0x98badcfe, 0x10325476)
  leBytes 4 st.1 ++ leBytes 4 st.2.1 ++ leBytes 4 st.2.2.1 ++ leBytes 4 st.2.2.2

/-! ## SHA-1 (RFC 3174), over byte lists -/

/-- SHA-1 padding: like MD5 but the bit length is big-endian. -/
def sha1Pad (msg : List Nat) : List Nat :=
  let l := msg.length
  msg ++ [128] ++ List.replicate ((119 - l % 64) % 64) 0 ++ beBytes 8 (l * 8)

/-- Big-endian 32-bit word `j` of a 64-byte block. -/
def beWord (block : List Nat) (j : Nat) : Nat :=
  16777216 * block.getD (4 * j) 0 + 65536 * block.getD (4 * j + 1) 0 +
    256 * block.getD (4 * j + 2) 0 + block.getD (4 * j + 3) 0

/-- The SHA-1 message schedule `W`, extended from the block's 16 words. -/
def sha1W (m : Nat → Nat) (i : Nat) : Nat :=
  if _h : i < 16 then m i % 4294967296
  else
    rotl32 ((sha1W m (i - 3) ^^^ sha1W m (i - 8)) ^^^
      (sha1W m (i - 14) ^^^ sha1W m (i - 16))) 1
termination_by i
decreasing_by all_goals omega

/-- One SHA-1 round applied to the state `(a, b, c, d, e)`. -/
def sha1Round (m : Nat → Nat) (st : Nat × Nat × Nat × Nat × Nat) (i : Nat) :
    Nat × Nat × Nat × Nat × Nat :=
  let (a, b, c, d, e) := st
  let f :=
    if i < 20 then (b &&& c) ||| (not32 b &&& d)
    else if i < 40 then (b ^^^ c) ^^^ d
    else if i < 60 then ((b &&& c) ||| (b &&& d)) ||| (c &&& d)
    else (b ^^^ c) ^^^ d
  let k :=
    if i < 20 then 0x5a827999
    else if i < 40 then 0x6ed9eba1
    else if i < 60 then 0x8f1bbcdc
    else 0xca62c1d6
  let t := add32 (add32 (rotl32 a 5) f) (add32 e (add32 k (sha1W m i)))
  (t, a, rotl32 b 30, c, d)

/-- Process one SHA-1 block, updating the running state. -/
def sha1Block (st : Nat × Nat × Nat × Nat × Nat) (block : List Nat) :
    Nat × Nat × Nat × Nat × Nat :=
  let (h0, h1, h2, h3, h4) := st
  let (a, b, c, d, e) := (List.range 80).foldl (sha1Round (beWord block)) st
  (add32 h0 a, add32 h1 b, add32 h2 c, add32 h3 d, add32 h4 e)

/-- SHA-1 digest of a byte list: 20 bytes. -/
def sha1 (msg : List Nat) : List Nat :=
  let padded := sha1Pad msg
  let blocks := (List.range (padded.length / 64)).map
    (fun i => (padded.drop (64 * i)).take 64)
  let st := blocks.foldl sha1Block
    (0x67452301, 0xefcdab89, 0x98badcfe, 0x10325476, 0xc3d2e1f0)
  beBytes 4 st.1 ++ beBytes 4 st.2.1 ++ beBytes 4 st.2.2.1 ++
    beBytes 4 st.2.2.2.1 ++ beBytes 4 st.2.2.2.2

/-! ## Hex and base64 encodings -/

/-- The sixteen lowercase hexadecimal digits, indexed modulo 16 (the index
fed to it is always a nibble, i.e. already below 16). -/
def hexLowerChar (x : Nat) : Char :=
  "0123456789abcdef".data.getD (x % 16) '0'

/-- The sixteen uppercase hexadecimal digits, indexed modulo 16. -/
def hexUpperChar (x : Nat) : Char :=
  "0123456789ABCDEF".data.getD (x % 16) '0'

/-- Lowercase hex encoding of a byte list (`base16ct::lower::encode_string`). -/
def hexLower (bs : List Nat) : List Char :=
  bs.flatMap (fun b => [hexLowerChar ((b >>> 4) &&& 15), hexLowerChar (b &&& 15)])

/-- Uppercase hex encoding of a byte list. -/
def hexUpper (bs : List Nat) : List Char :=
  bs.flatMap (fun b => [hexUpperChar ((b >>> 4) &&& 15), hexUpperChar (b &&& 15)])

/-- The standard base64 alphabet. -/
def base64Chars : List Char :=
  "ABCDEFGHIJKLMNOPQRSTUVWXYZabcdefghijklmnopqrstuvwxyz0123456789+/".data

/-- One base64 alphabet character, indexed modulo 64 (indices fed to it are
6-bit values, already below 64). -/
def b64Char (x : Nat) : Char := base64Chars.getD (x % 64) 'A'

/-- Standard padded base64 encoding of a byte list
(`base64ct::Base64::encode_string`). -/
def b64Encode : List Nat → List Char
  | [] => []
  | [a] => [b64Char (a >>> 2), b64Char ((a &&& 3) <<< 4), '=', '=']
  | [a, b] =>
      [b64Char (a >>> 2), b64Char (((a &&& 3) <<< 4) ||| (b >>> 4)),
       b64Char ((b &&& 15) <<< 2), '=']
  | a :: b :: c :: rest =>
      [b64Char (a >>> 2), b64Char (((a &&& 3) <<< 4) ||| (b >>> 4)),
       b64Char (((b &&& 15) <<< 2) ||| (c >>> 6)), b64Char (c &&& 63)] ++
        b64Encode rest

/-! ## JSON values (`serde_json::Value`)

Objects carry their fields as an association list; `serde_json`'s default
`Map` is a `BTreeMap`, so the `json!` macro keeps fields sorted by key, which
`objOf` reproduces.  Numbers in the payloads the client builds are integers
(`u32` volumes and positions, the literal `type` codes), so `num` holds an
`Int`. -/

inductive Json where
  | null : Json
  | bool (b : Bool) : Json
  | num (n : Int) : Json
  | str (s : String) : Json
  | arr (xs : List Json) : Json
  | obj (fields : List (String × Json)) : Json

/-- Lexicographic order on character lists by code point — on the ASCII
keys the client uses, exactly `BTreeMap`'s byte-wise `Ord` on `String`. -/
def charListLe : List Char → List Char → Bool
  | [], _ => true
  | _ :: _, [] => false
  | a :: as, b :: bs =>
      if a.toNat < b.toNat then true
      else if b.toNat < a.toNat then false
      else charListLe as bs

/-- `BTreeMap`'s key order. -/
def strLe (a b : String) : Bool := charListLe a.data b.data

/-- Insert a field into a key-sorted field list (the `BTreeMap` order). -/
def insertField (p : String × Json) : List (String × Json) → List (String × Json)
  | [] => [p]
  | q :: rest => if strLe p.1 q.1 then p :: q :: rest else q :: insertField p rest

/-- Sort fields by key, as `serde_json`'s `BTreeMap` stores them. -/
def sortFields : List (String × Json) → List (String × Json)
  | [] => []
  | p :: rest => insertField p (sortFields rest)

/-- A `json!` object literal: its fields end up sorted by key. -/
def Json.objOf (fields : List (String × Json)) : Json :=
  .obj (sortFields fields)

/-- JSON string escaping as `serde_json` writes it. -/
def escapeChar (c : Char) : List Char :=
  if c = '"' then ['\\', '"']
  else if c = '\\' then ['\\', '\\']
  else if c.toNat = 8 then ['\\', 'b']
  else if c.toNat = 9 then ['\\', 't']
  else if c.toNat = 10 then ['\\', 'n']
  else if c.toNat = 12 then ['\\', 'f']
  else if c.toNat = 13 then ['\\', 'r']
  else if c.toNat < 32 then
    ['\\', 'u', '0', '0', hexLowerChar ((c.toNat >>> 4) &&& 15),
     hexLowerChar (c.toNat &&& 15)]
  else [c]

/-- Escape a whole string for JSON output. -/
def escapeStr (s : String) : String := String.mk (s.data.flatMap escapeChar)

mutual

/-- `serde_json::to_string` of a value (`Value::to_string`): compact output,
no spaces, object fields in stored (sorted) order. -/
def Json.render : Json → String
  | .null => "null"
  | .bool true => "true"
  | .bool false => "false"
  | .num n => toString n
  | .str s => "\"" ++ escapeStr s ++ "\""
  | .arr xs => "[" ++ Json.renderArr xs ++ "]"
  | .obj fs => "\x7b" ++ Json.renderObj fs ++ "\x7d"

/-- Comma-separated rendering of array elements. -/
def Json.renderArr : List Json → String
  | [] => ""
  | [x] => x.render
  | x :: y :: rest => x.render ++ "," ++ Json.renderArr (y :: rest)

/-- Comma-separated rendering of object fields. -/
def Json.renderObj : List (String × Json) → String
  | [] => ""
  | [(k, v)] => "\"" ++ escapeStr k ++ "\":" ++ v.render
  | (k, v) :: f :: rest =>
      "\"" ++ escapeStr k ++ "\":" ++ v.render ++ "," ++ Json.renderObj (f :: rest)

end

/-- Look a key up in a JSON object (`Value::get` on an object). -/
def Json.getField : Json → String → Option Json
  | .obj fs, k => fs.lookup k
  | _, _ => none

/-- The string carried by a JSON string value, if it is one. -/
def Json.asStr : Json → Option String
  | .str s => some s
  | _ => none

/-- The integer carried by a JSON number value, if it is one. -/
def Json.asNum : Json → Option Int
  | .num n => some n
  | _ => none

/-! ## Signing utilities (`miai/src/login.rs`, `src/mina/mina.rs`) -/

/-- `login::hash_password` / `mina::password_hash`: MD5 the password bytes,
hex-encode in lowercase (`base16ct::lower::encode_string`), then
`make_ascii_uppercase` the result. -/
def hash_password (password : String) : String :=
  let result := md5 (strBytes password)
  let hexed := hexLower result
  String.mk (hexed.map Char.toUpper)

/-- `login::client_sign`: SHA-1 over the chained updates
`"nonce="`, `nonce.to_string()`, `"&"`, `ssecurity`, then base64. -/
def client_sign (nonce : Int) (ssecurity : String) : String :=
  let nsec := sha1 (strBytes "nonce=" ++ strBytes (toString nonce) ++
    strBytes "&" ++ strBytes ssecurity)
  String.mk (b64Encode nsec)

/-- The spec's wording of `client_sign`: base64 of the SHA-1 digest of the
single concatenated string `"nonce=" + nonce + "&" + ssecurity`. -/
def clientSignSpec (nonce : Int) (ssecurity : String) : String :=
  String.mk (b64Encode (sha1 (strBytes ("nonce=" ++ toString nonce ++ "&" ++ ssecurity))))

/-! ## Response envelopes and their validation -/

/-- `miai::XiaoaiResponse`: the `{code, message, data}` envelope; `code` is
`i64` in the source. -/
structure XiaoaiResponse where
  code : Int
  message : String
  data : Json

/-- `miai::Error`, restricted to the variants the embedded pipeline can
produce: `Api` carries the whole failed envelope. -/
inductive XiaoaiError where
  | api (response : XiaoaiResponse)
  | status (code : Nat)
  | transport
  | decode

/-- `XiaoaiResponse::error_for_code`: `Ok(self)` when `code == 0`, otherwise
`Err(Error::Api(self))`. -/
def XiaoaiResponse.error_for_code (self : XiaoaiResponse) :
    Except XiaoaiError XiaoaiResponse :=
  if self.code = 0 then .ok self else .error (.api self)

/-- `MinaResponse` of `src/mina.rs`; its `code` is a `serde_json::Number`,
an integer in the data model. -/
structure MinaResponse where
  code : Int
  message : String
  data : Json

/-- `mina::Error`, restricted to the variant `error_for_code` produces:
`Server { code, message }`. -/
inductive MinaError where
  | server (code : Int) (message : String)

/-- `MinaResponse::error_for_code`: `Ok(self)` when `code == 0`, otherwise
`Err(Error::Server { code, message })`. -/
def MinaResponse.error_for_code (self : MinaResponse) :
    Except MinaError MinaResponse :=
  if self.code = 0 then .ok self
  else .error (.server self.code self.message)

/-! ## Device command protocol (ubus call triples) -/

/-- The `{deviceId, method, path, message}` form every device command posts
to `remote/ubus`. -/
structure UbusCall where
  deviceId : String
  path : String
  method : String
  message : String
deriving DecidableEq

/-- `Xiaoai::play_url` (miai): always the generic `player_play_url` call,
with the empirically fixed `type: 3`. -/
def Xiaoai.play_url (device_id url : String) : UbusCall :=
  { deviceId := device_id, path := "mediaplayer", method := "player_play_url",
    message := (Json.objOf
      [("url", .str url), ("type", .num 3), ("media", .str "app_ios")]).render }

/-- `Xiaoai::play_music` (miai): the structured music-item call. -/
def Xiaoai.play_music (device_id url : String) : UbusCall :=
  { deviceId := device_id, path := "mediaplayer", method := "player_play_music",
    message := (Json.objOf
      [("startaudioid", .str "1582971365183456177"),
       ("music", Json.objOf
         [("payload", Json.objOf
           [("audio_items", .arr
             [Json.objOf
               [("item_id", Json.objOf
                 [("audio_id", .str "1582971365183456177"),
                  ("cp", Json.objOf
                    [("album_id", .str "-1"), ("episode_index", .num 0),
                     ("id", .str "355454500"), ("name", .str "xiaowei")])]),
                ("stream", Json.objOf [("url", .str url)])]]),
            ("list_params", Json.objOf
              [("listId", .str "-1"), ("loadmore_offset", .num 0),
               ("origin", .str "xiaowei"), ("type", .str "MUSIC")])]),
          ("play_behavior", .str "REPLACE_ALL")])]).render }

/-- `Xiaoai::set_volume` (miai): `player_set_volume` with the raw `u32`
volume, no client-side range check. -/
def Xiaoai.set_volume (device_id : String) (volume : Nat) : UbusCall :=
  { deviceId := device_id, path := "mediaplayer", method := "player_set_volume",
    message := (Json.objOf
      [("volume", .num volume), ("media", .str "app_ios")]).render }

/-- `Xiaoai::seek` (miai): `player_seek` with the raw `u32` position in
milliseconds, no client-side range check. -/
def Xiaoai.seek (device_id : String) (position_ms : Nat) : UbusCall :=
  { deviceId := device_id, path := "mediaplayer", method := "player_seek",
    message := (Json.objOf
      [("position", .num position_ms), ("media", .str "app_ios")]).render }

/-- The fixed hardware allow-list of `MinaDevice::play_url`'s `matches!`. -/
def minaPlayMusicModels : List String :=
  ["LX04", "L05B", "L05C", "L06", "L06A", "X08A", "X10A"]

/-- `MinaDevice::play_music` (mina): the structured music-item call, with
the explicit empty `audio_type`. -/
def MinaDevice.play_music (device_id url : String) : UbusCall :=
  { deviceId := device_id, path := "mediaplayer", method := "player_play_music",
    message := (Json.objOf
      [("startaudioid", .str "1582971365183456177"),
       ("music", Json.objOf
         [("payload", Json.objOf
           [("audio_type", .str ""),
            ("audio_items", .arr
             [Json.objOf
               [("item_id", Json.objOf
                 [("audio_id", .str "1582971365183456177"),
                  ("cp", Json.objOf
                    [("album_id", .str "-1"), ("episode_index", .num 0),
                     ("id", .str "355454500"), ("name", .str "xiaowei")])]),
                ("stream", Json.objOf [("url", .str url)])]]),
            ("list_params", Json.objOf
              [("listId", .str "-1"), ("loadmore_offset", .num 0),
               ("origin", .str "xiaowei"), ("type", .str "MUSIC")])]),
          ("play_behavior", .str "REPLACE_ALL")])]).render }

/-- `MinaDevice::play_url` (mina): route through the music-item call for the
allow-listed hardware models, otherwise the generic `player_play_url` call
with `type: 2`. -/
def MinaDevice.play_url (device_id hardware url : String) : UbusCall :=
  if hardware ∈ minaPlayMusicModels then
    MinaDevice.play_music device_id url
  else
    { deviceId := device_id, path := "mediaplayer", method := "player_play_url",
      message := (Json.objOf
        [("url", .str url), ("type", .num 2), ("media", .str "app_ios")]).render }

/-! ## The signed request layer (`Xiaoai::get` / `Xiaoai::post`) -/

/-- The device-control API host. -/
def API_SERVER : String := "https://api2.mina.mi.com/"

/-- The 62 characters of `rand`'s `Alphanumeric` distribution. -/
def alphanumericChars : List Char :=
  "ABCDEFGHIJKLMNOPQRSTUVWXYZabcdefghijklmnopqrstuvwxyz0123456789".data

/-- Modelled from the spec: `util::random_id` (its file is not among the
staged sources) samples `len` alphanumeric characters.  The randomness is
made explicit as a function from position to an index into the
alphanumeric alphabet. -/
def random_id (rng : Nat → Fin 62) (len : Nat) : String :=
  String.mk ((List.range len).map (fun i => alphanumericChars.getD (rng i) 'A'))

/-- `xiaoai::random_request_id`: `random_id(30)` with `"app_ios_"` inserted
at position 0. -/
def random_request_id (rng : Nat → Fin 62) : String :=
  "app_ios_" ++ random_id rng 30

/-- An HTTP request as the session layer assembles it: the base URL the
path is joined to, plus query parameters (GET) or form fields (POST). -/
structure Request where
  httpMethod : String
  base : String
  path : String
  query : List (String × String)
  form : List (String × String)
deriving DecidableEq

/-- What the network returns for a request that got a reply: the status
code and the body, already parsed as JSON where the client asks for JSON
(`none` stands for a body that is not JSON at all). -/
structure HttpReply where
  status : Nat
  body : Option Json

/-- A network failure before any reply (connection, timeout, TLS). -/
inductive HttpFailure where
  | transport
deriving DecidableEq

/-- The network as an oracle from requests to replies. -/
def HttpEnv : Type := Request → Except HttpFailure HttpReply

/-- `reqwest::Response::error_for_status` rejects exactly the client- and
server-error statuses 400..=599. -/
def errorForStatusFails (status : Nat) : Bool :=
  400 ≤ status && status ≤ 599

/-- serde's `Deserialize` for `XiaoaiResponse`: `code` must be a number,
`message` a string, and `data` present. -/
def parseXiaoaiResponse (j : Json) : Option XiaoaiResponse := do
  let code ← (← j.getField "code").asNum
  let message ← (← j.getField "message").asStr
  let data ← j.getField "data"
  pure ⟨code, message, data⟩

/-- The shared tail of `Xiaoai::get`/`post`: send, `error_for_status`,
parse the body as the envelope, `error_for_code`. -/
def runRequest (env : HttpEnv) (req : Request) : Except XiaoaiError XiaoaiResponse :=
  match env req with
  | .error _ => .error .transport
  | .ok reply =>
    if errorForStatusFails reply.status then .error (.status reply.status)
    else
      match reply.body.bind parseXiaoaiResponse with
      | none => .error .decode
      | some r => r.error_for_code

/-- `Xiaoai::get`: join the path to the base URL, attach a fresh request id
as the `requestId` query parameter, and run the validation pipeline.  The
issued request is returned alongside the outcome. -/
def Xiaoai.get (rng : Nat → Fin 62) (env : HttpEnv) (uri : String) :
    Request × Except XiaoaiError XiaoaiResponse :=
  let request_id := random_request_id rng
  let req : Request :=
    { httpMethod := "GET", base := API_SERVER, path := uri,
      query := [("requestId", request_id)], form := [] }
  (req, runRequest env req)

/-- `HashMap::insert` on a form modelled as an association list: the new
binding replaces any old binding of the same key. -/
def insertForm (k v : String) (form : List (String × String)) :
    List (String × String) :=
  (k, v) :: form.filter (fun p => p.1 ≠ k)

/-- `Xiaoai::post`: like `get` but the fresh request id goes into the form
as the `requestId` field. -/
def Xiaoai.post (rng : Nat → Fin 62) (env : HttpEnv) (uri : String)
    (form : List (String × String)) :
    Request × Except XiaoaiError XiaoaiResponse :=
  let request_id := random_request_id rng
  let req : Request :=
    { httpMethod := "POST", base := API_SERVER, path := uri,
      query := [], form := insertForm "requestId" request_id form }
  (req, runRequest env req)

/-! ## The login handshake (`Mina::login`, `src/mina/mina.rs`) -/

/-- The phase-1 fields `serviceLoginAuth2` needs; `sign` stands for the
source's `_sign` field. -/
structure LoginResponse where
  qs : String
  sid : String
  sign : String
  callback : String

/-- The phase-2 fields the token exchange needs. -/
structure AuthResponse where
  location : String
  nonce : Int
  ssecurity : String

/-- serde's `Deserialize` for `LoginResponse`: all four fields required
strings. -/
def parseLoginResponse (j : Json) : Option LoginResponse := do
  let qs ← (← j.getField "qs").asStr
  let sid ← (← j.getField "sid").asStr
  let s ← (← j.getField "_sign").asStr
  let callback ← (← j.getField "callback").asStr
  pure ⟨qs, sid, s, callback⟩

/-- serde's `Deserialize` for `AuthResponse`. -/
def parseAuthResponse (j : Json) : Option AuthResponse := do
  let location ← (← j.getField "location").asStr
  let nonce ← (← j.getField "nonce").asNum
  let ssecurity ← (← j.getField "ssecurity").asStr
  pure ⟨location, nonce, ssecurity⟩

/-- The unconditional `&bytes[11..]` slice of the login phases: `none`
models the Rust panic when the body has fewer than 11 bytes. -/
def sliceFrom11 (bytes : List Nat) : Option (List Nat) :=
  if 11 ≤ bytes.length then some (bytes.drop 11) else none

/-- A raw reply to a login-phase request: status and body bytes. -/
structure RawReply where
  status : Nat
  bytes : List Nat

/-- An ASCII character is URL-unreserved for `urlencoding::encode`. -/
def urlUnreserved (c : Char) : Bool :=
  c.isAlpha || c.isDigit || c = '-' || c = '.' || c = '_' || c = '~'

/-- `urlencoding::encode`: percent-encode every byte of every character
outside the unreserved set, uppercase hex. -/
def percentEncode (s : String) : String :=
  String.mk (s.data.flatMap fun c =>
    if urlUnreserved c then [c]
    else (charBytes c).flatMap fun b =>
      ['%', hexUpperChar ((b >>> 4) &&& 15), hexUpperChar (b &&& 15)])

/-- The network of the three login phases, one oracle per endpoint, plus
`serde_json::from_slice` as an oracle from body bytes to a JSON value
(`none` = not JSON). -/
structure LoginNet where
  serviceLogin : Except HttpFailure RawReply
  serviceLoginAuth2 : List (String × String) → Except HttpFailure RawReply
  serviceToken : String → Except HttpFailure RawReply
  fromSlice : List Nat → Option Json

/-- One request of the login handshake, as observed on the wire. -/
inductive LoginEvent where
  | getServiceLogin
  | postServiceLoginAuth2 (form : List (String × String))
  | getServiceToken (url : String)
deriving DecidableEq

/-- Why a login attempt aborted: a request failure (send failure or
`error_for_status`), or a body that did not decode as the phase's result. -/
inductive LoginAbort where
  | transport
  | status (code : Nat)
  | decode
deriving DecidableEq

/-- The phase-2 form of `Mina::login`: the phase-1 fields plus the account
name and the hashed password. -/
def loginAuthForm (lr : LoginResponse) (username hash : String) :
    List (String × String) :=
  [("_json", "true"), ("qs", lr.qs), ("sid", lr.sid), ("_sign", lr.sign),
   ("callback", lr.callback), ("user", username), ("hash", hash)]

/-- `Mina::login` as a pipeline over the network oracle.  The first
component is the outcome — `none` models a panic (the 11-byte slice out of
bounds), `some (.error _)` an aborted attempt, `some (.ok ())` a completed
handshake; the second component lists the requests issued, in order. -/
def Mina.login (net : LoginNet) (username password : String) :
    Option (Except LoginAbort Unit) × List LoginEvent :=
  match net.serviceLogin with
  | .error _ => (some (.error .transport), [.getServiceLogin])
  | .ok reply =>
    if errorForStatusFails reply.status then
      (some (.error (.status reply.status)), [.getServiceLogin])
    else
      match sliceFrom11 reply.bytes with
      | none => (none, [.getServiceLogin])
      | some rest =>
        match (net.fromSlice rest).bind parseLoginResponse with
        | none => (some (.error .decode), [.getServiceLogin])
        | some lr =>
          let form := loginAuthForm lr username (hash_password password)
          match net.serviceLoginAuth2 form with
          | .error _ =>
            (some (.error .transport),
             [.getServiceLogin, .postServiceLoginAuth2 form])
          | .ok reply2 =>
            if errorForStatusFails reply2.status then
              (some (.error (.status reply2.status)),
               [.getServiceLogin, .postServiceLoginAuth2 form])
            else
              match sliceFrom11 reply2.bytes with
              | none => (none, [.getServiceLogin, .postServiceLoginAuth2 form])
              | some rest2 =>
                match (net.fromSlice rest2).bind parseAuthResponse with
                | none =>
                  (some (.error .decode),
                   [.getServiceLogin, .postServiceLoginAuth2 form])
                | some auth =>
                  let url := auth.location ++ "&clientSign=" ++
                    percentEncode (client_sign auth.nonce auth.ssecurity)
                  match net.serviceToken url with
                  | .error _ =>
                    (some (.error .transport),
                     [.getServiceLogin, .postServiceLoginAuth2 form,
                      .getServiceToken url])
                  | .ok reply3 =>
                    if errorForStatusFails reply3.status then
                      (some (.error (.status reply3.status)),
                       [.getServiceLogin, .postServiceLoginAuth2 form,
                        .getServiceToken url])
                    else
                      (some (.ok ()),
                       [.getServiceLogin, .postServiceLoginAuth2 form,
                        .getServiceToken url])

/-! ## Session persistence (`Xiaoai::save` / `Xiaoai::load`) -/

/-- A cookie as the persistence layer sees it: identity (domain, name,
value) plus the expiry and persistence flags that `save` must not filter
on. -/
structure StoredCookie where
  domain : String
  name : String
  value : String
  expired : Bool
  persistent : Bool
deriving DecidableEq

/-- The (domain, name, value) identity of a cookie, the spec's notion of
cookie-set equality. -/
def StoredCookie.key (c : StoredCookie) : String × String × String :=
  (c.domain, c.name, c.value)

/-- The boolean carried by a JSON boolean value, if it is one. -/
def Json.asBool : Json → Option Bool
  | .bool b => some b
  | _ => none

/-- Modelled from the spec: how
`cookie_store::serde::json::save_incl_expired_and_nonpersistent` (not a
staged source; `Xiaoai::save` delegates to it) writes one cookie — a JSON
object of its fields, kept even when expired or session-only. -/
def cookieToJson (c : StoredCookie) : Json :=
  Json.objOf
    [("domain", .str c.domain), ("name", .str c.name), ("value", .str c.value),
     ("expired", .bool c.expired), ("persistent", .bool c.persistent)]

/-- Modelled from the spec: how `cookie_store::serde::json::load_all` (not
a staged source; `Xiaoai::load` delegates to it) reads one cookie back. -/
def cookieOfJson (j : Json) : Option StoredCookie := do
  let domain ← (← j.getField "domain").asStr
  let name ← (← j.getField "name").asStr
  let value ← (← j.getField "value").asStr
  let expired ← (← j.getField "expired").asBool
  let persistent ← (← j.getField "persistent").asBool
  pure ⟨domain, name, value, expired, persistent⟩

/-- `Xiaoai::save`'s serialization core: all cookies of the jar, expired
and session-only ones included, as a JSON array. -/
def saveCookies (jar : List StoredCookie) : Json :=
  .arr (jar.map cookieToJson)

/-- `Xiaoai::load`'s deserialization core: read every cookie of the array
back; any malformed entry fails the whole load. -/
def loadCookies : Json → Option (List StoredCookie)
  | .arr xs => xs.mapM cookieOfJson
  | _ => none

/-! ## The polling primitive (`Xiaoai::poll_ubus`) -/

/-- One observable event of the polling loop, tagged with its iteration
number: the ubus call, the handler invocation (carrying the response it
was given) and its completion, the logging of a failed call, and the
interval sleep. -/
inductive PollEvent (R : Type) where
  | call (n : Nat)
  | handlerStart (n : Nat) (response : R)
  | handlerEnd (n : Nat)
  | logError (n : Nat)
  | sleep (n : Nat)
deriving DecidableEq

/-- The events of iteration `n` of `poll_ubus`, given the outcome of each
iteration's `ubus_call`: on `Ok` the handler runs (and is awaited) before
the sleep; on `Err` the error is logged, the handler is skipped, and the
loop still sleeps and continues. -/
def pollIter {E R : Type} (results : Nat → Except E R) (n : Nat) :
    List (PollEvent R) :=
  match results n with
  | .ok r => [.call n, .handlerStart n r, .handlerEnd n, .sleep n]
  | .error _ => [.call n, .logError n, .sleep n]

/-- The flattened event trace of the first `n` iterations of `poll_ubus`.
The loop body has no `break` or `return`: the trace is defined for every
`n`, and no iteration's outcome is ever surfaced to the caller. -/
def pollTrace {E R : Type} (results : Nat → Except E R) (n : Nat) :
    List (PollEvent R) :=
  (List.range n).flatMap (pollIter results)

/-- Is an event a handler invocation? -/
def isHandlerStart {R : Type} : PollEvent R → Bool
  | .handlerStart _ _ => true
  | _ => false

/-- How many of the first `n` iterations' calls succeed. -/
def okCount {E R : Type} (results : Nat → Except E R) (n : Nat) : Nat :=
  ((List.range n).filter
    (fun k => match results k with | .ok _ => true | .error _ => false)).length

/-! ## Concrete instances used by the closed theorems -/

/-- A constant randomness source. -/
def rngZero : Nat → Fin 62 := fun _ => ⟨0, by omega⟩

/-- A network that replies to every request with status 304 (not a 2xx
status, but not a client or server error either) and a well-formed success
envelope. -/
def env304 : HttpEnv := fun _ =>
  .ok ⟨304, some (Json.objOf
    [("code", .num 0), ("message", .str "ok"), ("data", .null)])⟩

/-- A login network whose very first request fails at the transport level. -/
def netFail : LoginNet :=
  { serviceLogin := .error .transport
    serviceLoginAuth2 := fun _ => .error .transport
    serviceToken := fun _ => .error .transport
    fromSlice := fun _ => none }

/-- A login network whose phase-1 reply is three bytes long. -/
def netShort : LoginNet :=
  { serviceLogin := .ok ⟨200, [0, 1, 2]⟩
    serviceLoginAuth2 := fun _ => .error .transport
    serviceToken := fun _ => .error .transport
    fromSlice := fun _ => none }

/-! # Theorems -/

/-! ## Byte-string and encoding lemmas -/

theorem strBytes_append (a b : String) :
    strBytes (a ++ b) = strBytes a ++ strBytes b := by
  simp [strBytes, String.data_append]

theorem toUpper_hexLowerChar (x : Nat) :
    Char.toUpper (hexLowerChar x) = hexUpperChar x := by
  have h16 : x % 16 < 16 := Nat.mod_lt _ (by omega)
  have key : ∀ y < 16,
      Char.toUpper ("0123456789abcdef".data.getD y '0') =
        "0123456789ABCDEF".data.getD y '0' := by decide
  simpa [hexLowerChar, hexUpperChar] using key (x % 16) h16

theorem hexUpperChar_mem (x : Nat) :
    hexUpperChar x ∈ "0123456789ABCDEF".data := by
  have h16 : x % 16 < 16 := Nat.mod_lt _ (by omega)
  have key : ∀ y < 16,
      ("0123456789ABCDEF".data.getD y '0') ∈ "0123456789ABCDEF".data := by decide
  simpa [hexUpperChar] using key (x % 16) h16

theorem hexLower_toUpper (bs : List Nat) :
    (hexLower bs).map Char.toUpper = hexUpper bs := by
  induction bs with
  | nil => rfl
  | cons b rest ih =>
      simp [hexLower, hexUpper, List.flatMap_cons, toUpper_hexLowerChar] at ih ⊢
      exact ih

theorem hexLower_length (bs : List Nat) :
    (hexLower bs).length = 2 * bs.length := by
  induction bs with
  | nil => rfl
  | cons b rest ih =>
      simp [hexLower, List.flatMap_cons] at ih ⊢
      omega

theorem md5_length (msg : List Nat) : (md5 msg).length = 16 := by
  simp [md5, leBytes]

/-! ## C5, C6: the signing utilities -/

/-- C5: for every nonce and ssecurity, `client_sign` equals the base64
encoding of the SHA-1 digest of the exact concatenation
`"nonce=" ++ toString nonce ++ "&" ++ ssecurity` — the chained digest
updates of the source coincide with the spec's single concatenated string.
Determinism and purity are inherent: `client_sign` is a Lean function of
exactly its two arguments. -/
theorem client_sign_eq_spec (nonce : Int) (ssecurity : String) :
    client_sign nonce ssecurity = clientSignSpec nonce ssecurity := by
  simp [client_sign, clientSignSpec, strBytes_append, List.append_assoc]

/-- C6: `hash_password` is the uppercase hex encoding of the MD5 digest of
the password bytes: it agrees with the spec's direct uppercase-hex
formulation, always has exactly 32 characters, and every character is an
uppercase hexadecimal digit.  Determinism and absence of side effects are
inherent in the embedding (a pure Lean function). -/
theorem hash_password_spec (password : String) :
    hash_password password = String.mk (hexUpper (md5 (strBytes password)))
    ∧ (hash_password password).length = 32
    ∧ ∀ c ∈ (hash_password password).data, c ∈ "0123456789ABCDEF".data := by
  refine ⟨by simp [hash_password, hexLower_toUpper], ?_, ?_⟩
  · simp [hash_password, String.length, hexLower_length, md5_length]
  · intro c hc
    simp only [hash_password, hexLower_toUpper] at hc
    simp only [hexUpper, List.mem_flatMap] at hc
    obtain ⟨b, _, hb⟩ := hc
    simp only [List.mem_cons, List.not_mem_nil, or_false] at hb
    rcases hb with h | h
    · exact h ▸ hexUpperChar_mem _
    · exact h ▸ hexUpperChar_mem _

/-! ## C2: envelope validation -/

/-- C2: for both envelope types, `error_for_code` succeeds exactly when
`code == 0`; on success it returns the envelope itself (code, message and
data unchanged), and on any non-zero code it returns the application error
carrying exactly that code and that message (`Error::Api` carries the whole
envelope, `Error::Server` the `code`/`message` pair). -/
theorem error_for_code_spec (r : XiaoaiResponse) (m : MinaResponse) :
    ((∃ ok, r.error_for_code = .ok ok) ↔ r.code = 0)
    ∧ (r.code = 0 → r.error_for_code = .ok r)
    ∧ (r.code ≠ 0 → r.error_for_code = .error (.api r))
    ∧ ((∃ ok, m.error_for_code = .ok ok) ↔ m.code = 0)
    ∧ (m.code = 0 → m.error_for_code = .ok m)
    ∧ (m.code ≠ 0 → m.error_for_code = .error (.server m.code m.message)) := by
  by_cases hr : r.code = 0 <;> by_cases hm : m.code = 0 <;>
    simp [XiaoaiResponse.error_for_code, MinaResponse.error_for_code, hr, hm]

/-! ## C1: hardware-dependent play-URL routing -/

/-- C1 counterexample: `"LX04"` is on the allow-list, yet the miai client's
play-URL operation (`Xiaoai::play_url`, the one the CLI calls) takes no
hardware model at all and issues the generic `player_play_url` call — so
for a device whose hardware is `"LX04"` the play-URL operation does issue
the generic call, contradicting the claim. -/
theorem play_url_ignores_hardware_cex :
    "LX04" ∈ minaPlayMusicModels
    ∧ (Xiaoai.play_url "368812345" "http://example.com/a.mp3").method =
        "player_play_url"
    ∧ (Xiaoai.play_url "368812345" "http://example.com/a.mp3").method ≠
        "player_play_music" := by
  refine ⟨by decide, rfl, by decide⟩

/-- C1 amended: in the mina client, `MinaDevice::play_url` issues the
music-item call exactly for the hardware models on the fixed allow-list
and the generic `player_play_url` call for every unlisted model; the miai
client's `Xiaoai::play_url` performs no hardware branching and always
issues the generic call. -/
theorem play_url_routing (device_id hardware url : String) :
    ((MinaDevice.play_url device_id hardware url).method = "player_play_music"
      ↔ hardware ∈ minaPlayMusicModels)
    ∧ (hardware ∉ minaPlayMusicModels →
        (MinaDevice.play_url device_id hardware url).method = "player_play_url")
    ∧ (Xiaoai.play_url device_id url).method = "player_play_url" := by
  by_cases h : hardware ∈ minaPlayMusicModels <;>
    simp [MinaDevice.play_url, MinaDevice.play_music, Xiaoai.play_url, h]

/-! ## C7: the polling primitive -/

/-- C7: in every execution of `poll_ubus`, (i) the trace of `n + 1`
iterations extends the trace of `n` iterations — iteration `n + 1` starts
only after everything of iteration `n`, handler completion included, and the
loop continues regardless of any iteration's outcome, never terminating and
never surfacing a failure (the trace is total and carries no return or
propagated-error event); (ii) a successful call produces exactly one
handler invocation, awaited (its end event) before the interval sleep;
(iii) a failed call produces no handler invocation, one logged error, and
still the interval sleep; (iv) the number of handler invocations in the
first `n` iterations is exactly the number of successful calls among them,
so handler runs are serialized one per successful poll and never overlap. -/
theorem poll_ubus_trace {E R : Type} (results : Nat → Except E R) (n : Nat) :
    pollTrace results (n + 1) = pollTrace results n ++ pollIter results n
    ∧ (∀ r, results n = .ok r →
        pollIter results n = [.call n, .handlerStart n r, .handlerEnd n, .sleep n])
    ∧ (∀ e, results n = .error e →
        pollIter results n = [.call n, .logError n, .sleep n])
    ∧ (pollTrace results n).countP isHandlerStart = okCount results n := by
  refine ⟨by simp [pollTrace, List.range_succ], ?_, ?_, ?_⟩
  · intro r h; simp [pollIter, h]
  · intro e h; simp [pollIter, h]
  · induction n with
    | zero => rfl
    | succ k ih =>
        have hsplit : pollTrace results (k + 1) =
            pollTrace results k ++ pollIter results k := by
          simp [pollTrace, List.range_succ]
        rw [hsplit, List.countP_append, ih]
        cases hk : results k <;>
          simp [pollIter, hk, okCount, List.range_succ, isHandlerStart]

/-! ## C4: session persistence round trip -/

theorem cookieOfJson_toJson (c : StoredCookie) :
    cookieOfJson (cookieToJson c) = some c := by
  cases c
  rfl

/-- C4: for every cookie-jar contents — expired and session-only cookies
included, since `save` writes them all and `load` reads them all —
loading the output of `save` reconstructs the jar exactly, and in
particular a jar with an equal set of (domain, name, value) identities. -/
theorem save_load_roundtrip (jar : List StoredCookie) :
    loadCookies (saveCookies jar) = some jar
    ∧ (loadCookies (saveCookies jar)).map (List.map StoredCookie.key) =
        some (jar.map StoredCookie.key) := by
  have h : loadCookies (saveCookies jar) = some jar := by
    induction jar with
    | nil => rfl
    | cons c rest ih =>
        simp only [loadCookies, saveCookies, List.map_cons, List.mapM_cons,
          cookieOfJson_toJson] at ih ⊢
        rw [ih]
        rfl
  exact ⟨h, by rw [h]; rfl⟩

/-! ## C3: login aborts on early-phase failures -/

/-- C3: a phase-1 failure — transport error, `error_for_status` rejection,
or a body that does not decode as the phase-1 result (JSON parse failure or
a missing required field `qs`/`sid`/`_sign`/`callback`) — aborts the login
with that error before the phase-2 auth POST is issued (the event list ends
at `getServiceLogin`), and nothing but the error is returned; likewise a
phase-2 failure aborts before the phase-3 token-exchange GET. -/
theorem login_aborts_on_early_failure (net : LoginNet) (u p : String) :
    (net.serviceLogin = .error .transport →
      Mina.login net u p = (some (.error .transport), [.getServiceLogin]))
    ∧ (∀ reply, net.serviceLogin = .ok reply →
        errorForStatusFails reply.status = true →
        Mina.login net u p =
          (some (.error (.status reply.status)), [.getServiceLogin]))
    ∧ (∀ reply, net.serviceLogin = .ok reply →
        errorForStatusFails reply.status = false →
        11 ≤ reply.bytes.length →
        (net.fromSlice (reply.bytes.drop 11)).bind parseLoginResponse = none →
        Mina.login net u p = (some (.error .decode), [.getServiceLogin]))
    ∧ (∀ reply lr, net.serviceLogin = .ok reply →
        errorForStatusFails reply.status = false →
        11 ≤ reply.bytes.length →
        (net.fromSlice (reply.bytes.drop 11)).bind parseLoginResponse = some lr →
        net.serviceLoginAuth2 (loginAuthForm lr u (hash_password p)) =
          .error .transport →
        Mina.login net u p =
          (some (.error .transport),
           [.getServiceLogin,
            .postServiceLoginAuth2 (loginAuthForm lr u (hash_password p))]))
    ∧ (∀ reply lr reply2, net.serviceLogin = .ok reply →
        errorForStatusFails reply.status = false →
        11 ≤ reply.bytes.length →
        (net.fromSlice (reply.bytes.drop 11)).bind parseLoginResponse = some lr →
        net.serviceLoginAuth2 (loginAuthForm lr u (hash_password p)) = .ok reply2 →
        errorForStatusFails reply2.status = true →
        Mina.login net u p =
          (some (.error (.status reply2.status)),
           [.getServiceLogin,
            .postServiceLoginAuth2 (loginAuthForm lr u (hash_password p))]))
    ∧ (∀ reply lr reply2, net.serviceLogin = .ok reply →
        errorForStatusFails reply.status = false →
        11 ≤ reply.bytes.length →
        (net.fromSlice (reply.bytes.drop 11)).bind parseLoginResponse = some lr →
        net.serviceLoginAuth2 (loginAuthForm lr u (hash_password p)) = .ok reply2 →
        errorForStatusFails reply2.status = false →
        11 ≤ reply2.bytes.length →
        (net.fromSlice (reply2.bytes.drop 11)).bind parseAuthResponse = none →
        Mina.login net u p =
          (some (.error .decode),
           [.getServiceLogin,
            .postServiceLoginAuth2 (loginAuthForm lr u (hash_password p))])) := by
  refine ⟨?_, ?_, ?_, ?_, ?_, ?_⟩
  · intro h1; simp [Mina.login, h1]
  · intro reply h1 h2; simp [Mina.login, h1, h2]
  · intro reply h1 h2 h3 h4
    simp [Mina.login, h1, h2, sliceFrom11, h3, h4]
  · intro reply lr h1 h2 h3 h4 h5
    simp [Mina.login, h1, h2, sliceFrom11, h3, h4, h5]
  · intro reply lr reply2 h1 h2 h3 h4 h5 h6
    simp [Mina.login, h1, h2, sliceFrom11, h3, h4, h5, h6]
  · intro reply lr reply2 h1 h2 h3 h4 h5 h6 h7 h8
    simp [Mina.login, h1, h2, sliceFrom11, h3, h4, h5, h6, h7, h8]

/-- C3 witness: the theorem applied to a network whose first request fails
at the transport level — the attempt aborts after the one phase-1 GET. -/
theorem login_aborts_on_early_failure_witness :
    Mina.login netFail "alice" "hunter2" =
      (some (.error .transport), [.getServiceLogin]) :=
  (login_aborts_on_early_failure netFail "alice" "hunter2").1 rfl

/-! ## C9: the unconditional 11-byte slice -/

/-- C9: the prefix stripping of login phases 1 and 2 is the unconditional
slice `&bytes[11..]`: it is defined exactly when the body has at least 11
bytes (then it yields `bytes.drop 11`), and a phase-1 or phase-2 body
shorter than 11 bytes makes the client panic (outcome `none`) instead of
returning a decode error. -/
theorem login_slice_panics_when_short (net : LoginNet) (u p : String) :
    (∀ bytes, sliceFrom11 bytes = none ↔ bytes.length < 11)
    ∧ (∀ bytes, 11 ≤ bytes.length → sliceFrom11 bytes = some (bytes.drop 11))
    ∧ (∀ reply, net.serviceLogin = .ok reply →
        errorForStatusFails reply.status = false →
        reply.bytes.length < 11 →
        Mina.login net u p = (none, [.getServiceLogin]))
    ∧ (∀ reply lr reply2, net.serviceLogin = .ok reply →
        errorForStatusFails reply.status = false →
        11 ≤ reply.bytes.length →
        (net.fromSlice (reply.bytes.drop 11)).bind parseLoginResponse = some lr →
        net.serviceLoginAuth2 (loginAuthForm lr u (hash_password p)) = .ok reply2 →
        errorForStatusFails reply2.status = false →
        reply2.bytes.length < 11 →
        Mina.login net u p =
          (none,
           [.getServiceLogin,
            .postServiceLoginAuth2 (loginAuthForm lr u (hash_password p))])) := by
  refine ⟨?_, ?_, ?_, ?_⟩
  · intro bytes; simp [sliceFrom11]
  · intro bytes h; simp [sliceFrom11, h]
  · intro reply h1 h2 h3
    have h4 : ¬ 11 ≤ reply.bytes.length := by omega
    simp [Mina.login, h1, h2, sliceFrom11, h4]
  · intro reply lr reply2 h1 h2 h3 h4 h5 h6 h7
    have h8 : ¬ 11 ≤ reply2.bytes.length := by omega
    simp [Mina.login, h1, h2, sliceFrom11, h3, h4, h5, h6, h8]

/-- C9 witness: the theorem applied to a network whose phase-1 body is
three bytes long — the slice panics (outcome `none`) after the one
phase-1 GET, with no decode error returned. -/
theorem login_slice_panics_when_short_witness :
    Mina.login netShort "alice" "hunter2" = (none, [.getServiceLogin]) :=
  (login_slice_panics_when_short netShort "alice" "hunter2").2.2.1
    ⟨200, [0, 1, 2]⟩ rfl rfl (by simp)

/-! ## C8: the signed request layer -/

theorem alphanumericChars_getD_mem (n : Nat) (h : n < 62) :
    alphanumericChars.getD n 'A' ∈ alphanumericChars := by
  rw [List.getD_eq_getElem?_getD, List.getElem?_eq_getElem (by simpa using h)]
  exact List.getElem_mem _

/-- C8 counterexample: a reply with status 304 — not a 2xx status — and a
well-formed `code = 0` envelope body makes `Xiaoai::get` succeed, because
`reqwest`'s `error_for_status` rejects only the client- and server-error
statuses 400..=599.  So `get` does not require a 2xx status. -/
theorem get_succeeds_on_304_cex :
    (Xiaoai.get rngZero env304 "admin/v2/device_list?master=0").2 =
      .ok ⟨0, "ok", .null⟩
    ∧ ¬ (200 ≤ 304 ∧ 304 ≤ 299) :=
  ⟨rfl, by omega⟩

/-- C8 amended: every GET joins its path to the base URL and carries a
freshly generated `"app_ios_" ++ 30 alphanumeric characters` request id as
its sole `requestId` query parameter; every POST injects the same kind of
id as a `requestId` form field.  Both run the same validation pipeline: a
transport failure is an error, a status in 400..=599 (rather than the
claimed "any non-2xx") is a status error, a body that does not parse as
the envelope is a decode error, and a parsed envelope is validated by
`error_for_code`, so the call fails unless `code == 0`. -/
theorem get_post_request_pipeline (rng : Nat → Fin 62) (env : HttpEnv)
    (uri : String) (form : List (String × String)) :
    (Xiaoai.get rng env uri).1 =
      { httpMethod := "GET", base := API_SERVER, path := uri,
        query := [("requestId", random_request_id rng)], form := [] }
    ∧ (Xiaoai.get rng env uri).2 = runRequest env (Xiaoai.get rng env uri).1
    ∧ (Xiaoai.post rng env uri form).1 =
      { httpMethod := "POST", base := API_SERVER, path := uri, query := [],
        form := ("requestId", random_request_id rng) ::
          form.filter (fun q => q.1 ≠ "requestId") }
    ∧ (Xiaoai.post rng env uri form).2 =
        runRequest env (Xiaoai.post rng env uri form).1
    ∧ random_request_id rng = "app_ios_" ++ random_id rng 30
    ∧ (random_id rng 30).length = 30
    ∧ (∀ c ∈ (random_id rng 30).data, c ∈ alphanumericChars)
    ∧ (∀ s, errorForStatusFails s = true ↔ 400 ≤ s ∧ s ≤ 599)
    ∧ (∀ req, env req = .error .transport →
        runRequest env req = .error .transport)
    ∧ (∀ req reply, env req = .ok reply →
        errorForStatusFails reply.status = true →
        runRequest env req = .error (.status reply.status))
    ∧ (∀ req reply, env req = .ok reply →
        errorForStatusFails reply.status = false →
        reply.body.bind parseXiaoaiResponse = none →
        runRequest env req = .error .decode)
    ∧ (∀ req reply r, env req = .ok reply →
        errorForStatusFails reply.status = false →
        reply.body.bind parseXiaoaiResponse = some r →
        runRequest env req = r.error_for_code) := by
  refine ⟨rfl, rfl, by simp [Xiaoai.post, insertForm], rfl, rfl, ?_, ?_, ?_, ?_, ?_, ?_, ?_⟩
  · simp [random_id, String.length]
  · intro c hc
    simp only [random_id, List.mem_map, String.data] at hc
    obtain ⟨i, _, hi⟩ := hc
    exact hi ▸ alphanumericChars_getD_mem _ (rng i).isLt
  · intro s; simp [errorForStatusFails]
  · intro req h; simp [runRequest, h]
  · intro req reply h1 h2; simp [runRequest, h1, h2]
  · intro req reply h1 h2 h3; simp [runRequest, h1, h2, h3]
  · intro req reply r h1 h2 h3; simp [runRequest, h1, h2, h3]

/-! ## C10: raw u32 forwarding in set_volume and seek -/

/-- C10: for every `u32` value `v` — 0 and `u32::MAX` included —
`set_volume` issues exactly one ubus call with path `"mediaplayer"`,
method `"player_set_volume"` and message the JSON-serialized string
carrying `v` verbatim (no range check or clamping anywhere between the
argument and the wire string); likewise `seek` forwards any `u32`
position unvalidated under the `position` key. -/
theorem set_volume_seek_unclamped (device_id : String) (v : Nat)
    (_hv : v < 4294967296) :
    Xiaoai.set_volume device_id v =
      { deviceId := device_id, path := "mediaplayer",
        method := "player_set_volume",
        message := "\x7b\"media\":\"app_ios\",\"volume\":" ++ toString v ++ "\x7d" }
    ∧ Xiaoai.seek device_id v =
      { deviceId := device_id, path := "mediaplayer", method := "player_seek",
        message := "\x7b\"media\":\"app_ios\",\"position\":" ++ toString v ++ "\x7d" } := by
  constructor
  · simp [Xiaoai.set_volume, Json.objOf, sortFields, insertField, strLe,
      charListLe, Json.render, Json.renderObj, escapeStr, escapeChar]
    rfl
  · simp [Xiaoai.seek, Json.objOf, sortFields, insertField, strLe,
      charListLe, Json.render, Json.renderObj, escapeStr, escapeChar]
    rfl

/-- C10 witness: the theorem applied at `u32::MAX`, the largest value the
claim ranges over. -/
theorem set_volume_seek_unclamped_witness :
    (4294967295 : Nat) < 4294967296
    ∧ (Xiaoai.set_volume "368812345" 4294967295 =
        { deviceId := "368812345", path := "mediaplayer",
          method := "player_set_volume",
          message := "\x7b\"media\":\"app_ios\",\"volume\":" ++
            toString (4294967295 : Nat) ++ "\x7d" }
      ∧ Xiaoai.seek "368812345" 4294967295 =
        { deviceId := "368812345", path := "mediaplayer", method := "player_seek",
          message := "\x7b\"media\":\"app_ios\",\"position\":" ++
            toString (4294967295 : Nat) ++ "\x7d" }) :=
  ⟨by omega, set_volume_seek_unclamped "368812345" 4294967295 (by omega)⟩

end XiaoaiCli
